import Mathlib

/-!
Shallow embedding of the go-safe-backup library (package safebackup).

The Go sources embedded here are:
* `local.go` — `LocalBackupSession`, `NewLocalBackupSession`, `Save`,
  `WaitForCompletion`, `Close`, `copyFile`, `checkAndCleanIfNeeded`,
  `performCleaning`, `validateLocalConfig`;
* `s3.go` — `S3BackupSession`, `Save`, `uploadFile`, `WaitForCompletion`,
  `validateS3Config`;
* `types.go` — the configuration records;
* `errors.go` — the sentinel errors.

External collaborators (the disk-usage probe `DiskInfo.GetDiskUsage` and the
cleaning engine `cleaner.CleanBackup`) are modelled by passing their result at
each call site as an explicit argument.  File-system operations (`os.Stat`,
`os.MkdirAll`, `os.Open`, `os.Create`, `io.Copy`, `Chmod`, `Sync`) are likewise
modelled by explicit outcome parameters.  Goroutines are modelled by counting
dispatched-but-unfinished tasks in the session state and providing a function
that runs one such task; the `sync.WaitGroup` is the `outstandingWork` counter.
Go `int64` arithmetic wraps modulo 2^64; the helpers below make that explicit.
-/

namespace SafeBackup

/-- Result of a disk-usage query, mirroring `cleaner.DiskUsage` (fields
`Total`, `Free`, `Used`, all `uint64`). -/
structure DiskUsage where
  total : Nat
  free : Nat
  used : Nat
deriving Repr, DecidableEq

/-- Outcome of one call to the capacity probe `DiskInfo.GetDiskUsage`:
either a snapshot or an error. -/
inductive ProbeResult where
  | ok (d : DiskUsage)
  | err
deriving Repr, DecidableEq

/-- Outcome of one call to the external engine `cleaner.CleanBackup`. -/
inductive EngineResult where
  | ok
  | err
deriving Repr, DecidableEq

/-- The part of `cleaner.CleaningConfig` the coordinator reads or writes:
`MaxUsagePercent *float64`.  The percentage is modelled as a rational. -/
structure CleaningConfig where
  maxUsagePercent : Option ℚ
deriving Repr, DecidableEq

/-- `LocalBackupSessionConfig` from types.go. -/
structure LocalBackupSessionConfig where
  rootDir : String
  freeSpaceThreshold : Nat
  targetFreeSpace : Nat
  checkInterval : Nat
  cleaningConfig : CleaningConfig
deriving Repr, DecidableEq

/-- Errors returned by the library: the three sentinels of errors.go, wrapped
with a message by `fmt.Errorf`, and plain `fmt.Errorf` wrappings of I/O or
SDK errors. -/
inductive GoError where
  | invalidConfig (msg : String)
  | backupFailed (msg : String)
  | cleaningTimeout
  | plain (msg : String)
deriving Repr, DecidableEq

/-- Go `int64` normalisation: wrap an unbounded integer into `[-2^63, 2^63)`. -/
def toInt64 (z : Int) : Int :=
  (z + 2 ^ 63) % 2 ^ 64 - 2 ^ 63

/-- The Go conversion `int64(x)` applied to a `uint64` value. -/
def uint64ToInt64 (n : Nat) : Int :=
  toInt64 n

/-- `atomic.AddInt64`: two's-complement 64-bit addition. -/
def addInt64 (a b : Int) : Int :=
  toInt64 (a + b)

/-- `validateLocalConfig` from local.go.  `FreeSpaceThreshold` and
`TargetFreeSpace` are `uint64`, so the Go comparisons `<= 0` hold exactly
when the value is zero. -/
def validateLocalConfig (config : LocalBackupSessionConfig) : Except GoError Unit :=
  if config.rootDir = "" then
    .error (.invalidConfig "root directory is required")
  else if config.freeSpaceThreshold ≤ 0 then
    .error (.invalidConfig "free space threshold must be positive")
  else if config.targetFreeSpace ≤ 0 then
    .error (.invalidConfig "target free space must be positive")
  else if config.targetFreeSpace ≤ config.freeSpaceThreshold then
    .error (.invalidConfig "target free space must be greater than threshold")
  else
    .ok ()

/-- `LocalBackupSession` state.  `accumulatedSize` is the atomic `int64`
counter; `isCleaningActive` the atomic flag; `outstandingWork` the
`sync.WaitGroup` counter; `pendingCleanings` counts cleaning goroutines that
have been dispatched with `go` but have not yet run to completion;
`cleaningDoneClosed` records whether `close(cleaningDone)` has happened. -/
structure LocalBackupSession where
  config : LocalBackupSessionConfig
  accumulatedSize : Int
  isCleaningActive : Bool
  outstandingWork : Nat
  pendingCleanings : Nat
  cleaningDoneClosed : Bool
deriving Repr, DecidableEq

/-- The defaulting step of `NewLocalBackupSession`: `CheckInterval` falls back
to 1 GiB when it is zero. -/
def applyDefaults (config : LocalBackupSessionConfig) : LocalBackupSessionConfig :=
  if config.checkInterval = 0 then
    { config with checkInterval := 1024 * 1024 * 1024 }
  else config

/-- `NewLocalBackupSession` from local.go.  `mkdirOk` is the outcome of
`os.MkdirAll(config.RootDir, 0755)`; `probe` is the result of the initial
`GetDiskUsage` call. -/
def NewLocalBackupSession (config : LocalBackupSessionConfig) (mkdirOk : Bool)
    (probe : ProbeResult) : Except GoError LocalBackupSession :=
  match validateLocalConfig config with
  | .error e => .error e
  | .ok _ =>
    let config := applyDefaults config
    let session : LocalBackupSession :=
      { config := config
        accumulatedSize := 0
        isCleaningActive := false
        outstandingWork := 0
        pendingCleanings := 0
        cleaningDoneClosed := false }
    if mkdirOk = false then
      .error (.plain "failed to create root directory")
    else
      match probe with
      | .err => .error (.plain "failed to get disk usage")
      | .ok diskInfo =>
        if diskInfo.free < config.freeSpaceThreshold then
          .ok { session with
                  isCleaningActive := true
                  outstandingWork := session.outstandingWork + 1
                  pendingCleanings := session.pendingCleanings + 1 }
        else
          .ok session

/-- Record of one invocation of `cleaner.CleanBackup(rootDir, config)`. -/
structure EngineCall where
  rootDir : String
  config : CleaningConfig
deriving Repr, DecidableEq

/-- `performCleaning` from local.go.  The deferred block stores `false` into
`isCleaningActive` and zero into `accumulatedSize` on every return path.
Returns the updated session together with the engine invocation made, if any
(`none` when the probe failed and `CleanBackup` was never reached). -/
def performCleaning (s : LocalBackupSession) (probe : ProbeResult)
    (engine : EngineResult) : LocalBackupSession × Option EngineCall :=
  let finalized : LocalBackupSession :=
    { s with isCleaningActive := false, accumulatedSize := 0 }
  match probe with
  | .err => (finalized, none)
  | .ok diskInfo =>
    let targetUsedSpace : Nat :=
      if s.config.targetFreeSpace < diskInfo.total then
        diskInfo.total - s.config.targetFreeSpace
      else 0
    let targetUsagePercent : ℚ :=
      (targetUsedSpace : ℚ) / (diskInfo.total : ℚ) * 100
    let cleanCfg :=
      if s.config.cleaningConfig.maxUsagePercent = none then
        { s.config.cleaningConfig with maxUsagePercent := some targetUsagePercent }
      else s.config.cleaningConfig
    -- `CleanBackup` is invoked; its report is unused and its error swallowed,
    -- so the resulting state does not depend on `engine`.
    match engine with
    | .ok => (finalized, some ⟨s.config.rootDir, cleanCfg⟩)
    | .err => (finalized, some ⟨s.config.rootDir, cleanCfg⟩)

/-- The cleaning goroutine: `defer wg.Done()` around `performCleaning`. -/
def runCleaningTask (s : LocalBackupSession) (probe : ProbeResult)
    (engine : EngineResult) : LocalBackupSession × Option EngineCall :=
  let r := performCleaning s probe engine
  ({ r.1 with
      outstandingWork := r.1.outstandingWork - 1
      pendingCleanings := r.1.pendingCleanings - 1 },
   r.2)

/-- `checkAndCleanIfNeeded` from local.go.  `probe` is the result of the
`GetDiskUsage` call made under the mutex.  In this sequential embedding the
locked re-check of `isCleaningActive` repeats the fast check. -/
def checkAndCleanIfNeeded (s : LocalBackupSession) (probe : ProbeResult) :
    LocalBackupSession :=
  if s.isCleaningActive then s
  else if s.isCleaningActive then s
  else
    match probe with
    | .err => s
    | .ok diskInfo =>
      if diskInfo.free < s.config.freeSpaceThreshold then
        { s with
            isCleaningActive := true
            outstandingWork := s.outstandingWork + 1
            pendingCleanings := s.pendingCleanings + 1 }
      else s

/-- Result of `os.Stat` on the source file: `none` models a stat error;
otherwise the size and regular-file bit of the `FileInfo`. -/
structure FileStat where
  size : Int
  isRegular : Bool
deriving Repr, DecidableEq

/-- Outcomes of the file-system calls made inside `copyFile`. -/
structure CopyFileEnv where
  openOk : Bool
  createOk : Bool
  ioCopyOk : Bool
  statOk : Bool
  chmodOk : Bool
  syncOk : Bool
deriving Repr, DecidableEq

instance : DecidableEq (Except GoError Unit) := fun a b =>
  match a, b with
  | .ok x, .ok y => .isTrue (by cases x; cases y; rfl)
  | .error x, .error y => if h : x = y then .isTrue (by rw [h]) else .isFalse (by simp [h])
  | .ok _, .error _ => .isFalse (by simp)
  | .error _, .ok _ => .isFalse (by simp)

/-- Result of `copyFile`: the returned error, and whether `os.Remove(dst)`
was executed on the destination. -/
structure CopyResult where
  result : Except GoError Unit
  destRemoved : Bool
deriving Repr, DecidableEq

/-- `copyFile` from local.go: open source, create destination, `io.Copy`
(removing the destination on copy failure), re-stat the source, propagate
permission bits, then `Sync`. -/
def copyFile (env : CopyFileEnv) : CopyResult :=
  if env.openOk = false then
    ⟨.error (.plain "failed to open source file"), false⟩
  else if env.createOk = false then
    ⟨.error (.plain "failed to create destination file"), false⟩
  else if env.ioCopyOk = false then
    ⟨.error (.plain "failed to copy file"), true⟩
  else if env.statOk = false then
    ⟨.error (.plain "failed to stat source file"), false⟩
  else if env.chmodOk = false then
    ⟨.error (.plain "failed to set file permissions"), false⟩
  else if env.syncOk = false then
    ⟨.error (.plain "sync failed"), false⟩
  else
    ⟨.ok (), false⟩

/-- `Save` from local.go.  `stat` is the result of `os.Stat(localFilePath)`;
`mkdirOk` the outcome of creating the destination directory; `env` the
outcomes inside `copyFile`; `probe` the probe result consumed by
`checkAndCleanIfNeeded` should the accumulated size reach the interval.
Returns the updated session and Save's return value. -/
def Save (s : LocalBackupSession) (localFilePath relativePath : String)
    (stat : Option FileStat) (mkdirOk : Bool) (env : CopyFileEnv)
    (probe : ProbeResult) : LocalBackupSession × Except GoError Unit :=
  if localFilePath = "" ∨ relativePath = "" then
    (s, .error (.invalidConfig "empty file path"))
  else
    match stat with
    | none => (s, .error (.plain "failed to stat source file"))
    | some srcInfo =>
      if srcInfo.isRegular = false then
        (s, .error (.invalidConfig "source is not a regular file"))
      else if mkdirOk = false then
        (s, .error (.plain "failed to create destination directory"))
      else
        match (copyFile env).result with
        | .error _ => (s, .error (.backupFailed "copy failed"))
        | .ok _ =>
          let newAccumulatedSize := addInt64 s.accumulatedSize srcInfo.size
          let s := { s with accumulatedSize := newAccumulatedSize }
          let s :=
            if newAccumulatedSize ≥ uint64ToInt64 s.config.checkInterval then
              checkAndCleanIfNeeded s probe
            else s
          (s, .ok ())

/-- `WaitForCompletion` from local.go.  `ctxDone` says whether the caller's
context is cancelled/expired.  `none` models the call still blocking; `some`
its return value.  (When the context fires and the work is already finished
Go's `select` picks a ready branch nondeterministically; the claims below only
exercise the determined cases, and this embedding resolves the tie in favour
of the timeout branch.) -/
def WaitForCompletion (s : LocalBackupSession) (ctxDone : Bool) :
    Option (Except GoError Unit) :=
  if ctxDone then some (.error .cleaningTimeout)
  else if s.outstandingWork = 0 then some (.ok ())
  else none

/-- Result of `Close`: Go panics on `close` of an already-closed channel. -/
inductive CloseResult where
  | ok (s : LocalBackupSession)
  | panicked
deriving Repr, DecidableEq

/-- `Close` from local.go: unconditionally `close(s.cleaningDone)`. -/
def Close (s : LocalBackupSession) : CloseResult :=
  if s.cleaningDoneClosed then .panicked
  else .ok { s with cleaningDoneClosed := true }

/-- `S3BackupSessionConfig` from types.go.  The Go field `Prefix` is named
`pfx` here. -/
structure S3BackupSessionConfig where
  region : String
  accessKeyID : String
  secretAccessKey : String
  sessionToken : String
  bucket : String
  pfx : String
  endpoint : String
  acl : String
deriving Repr, DecidableEq

/-- The ACL whitelist of `validateS3Config` (`validACLs`). -/
def validACLs : List String :=
  ["private", "public-read", "public-read-write", "authenticated-read",
   "aws-exec-read", "bucket-owner-read", "bucket-owner-full-control", ""]

/-- `validateS3Config` from s3.go.  The credentials check computes a boolean
and discards it, so only region, bucket and ACL are actually validated. -/
def validateS3Config (config : S3BackupSessionConfig) : Except GoError Unit :=
  if config.region = "" then
    .error (.invalidConfig "region is required")
  else if config.bucket = "" then
    .error (.invalidConfig "bucket name is required")
  else if (validACLs.contains config.acl) = false then
    .error (.invalidConfig "invalid ACL value")
  else
    .ok ()

/-- `S3BackupSession` state: the `sync.WaitGroup` counter plus a count of
upload goroutines dispatched with `go` but not yet finished. -/
structure S3BackupSession where
  config : S3BackupSessionConfig
  outstandingWork : Nat
  pendingUploads : Nat
deriving Repr, DecidableEq

/-- `Save` from s3.go.  `stat` is the result of `os.Stat(localFilePath)`.
On valid input the upload is registered (`wg.Add(1)`) and dispatched as a
goroutine, and Save returns `nil` immediately. -/
def S3Save (s : S3BackupSession) (localFilePath relativePath : String)
    (stat : Option FileStat) : S3BackupSession × Except GoError Unit :=
  if localFilePath = "" ∨ relativePath = "" then
    (s, .error (.invalidConfig "empty file path"))
  else
    match stat with
    | none => (s, .error (.plain "failed to stat file"))
    | some fileInfo =>
      if fileInfo.isRegular = false then
        (s, .error (.invalidConfig "source is not a regular file"))
      else
        ({ s with
            outstandingWork := s.outstandingWork + 1
            pendingUploads := s.pendingUploads + 1 },
         .ok ())

/-- One upload goroutine running to completion: `defer wg.Done()` around
`_ = s.uploadFile(...)` — the error of `uploadFile` is discarded, so the
resulting state is the same whether the upload succeeded or failed. -/
def runUploadTask (s : S3BackupSession) (uploadResult : Except GoError Unit) :
    S3BackupSession :=
  match uploadResult with
  | .ok _ =>
    { s with
        outstandingWork := s.outstandingWork - 1
        pendingUploads := s.pendingUploads - 1 }
  | .error _ =>
    { s with
        outstandingWork := s.outstandingWork - 1
        pendingUploads := s.pendingUploads - 1 }

/-- A batch of dispatched uploads running to completion, each with its own
success or failure. -/
def runUploads (s : S3BackupSession) : List (Except GoError Unit) → S3BackupSession
  | [] => s
  | r :: rs => runUploads (runUploadTask s r) rs

/-- `WaitForCompletion` from s3.go: same `select` over the context and the
wait-group barrier as the local variant. -/
def S3WaitForCompletion (s : S3BackupSession) (ctxDone : Bool) :
    Option (Except GoError Unit) :=
  if ctxDone then some (.error (.plain "upload timeout"))
  else if s.outstandingWork = 0 then some (.ok ())
  else none

/-!
## Interleaving model of the cleaning trigger

`checkAndCleanIfNeeded` is executed concurrently by every `Save` call that
crosses the check interval.  Each executing call is a thread stepping through
the routine's shared-memory accesses: the unlocked fast read of
`isCleaningActive`, the `cleaningMutex.Lock()`, the locked re-read, the probe
plus threshold test (under the lock), the `isCleaningActive.Store(true)`, the
`wg.Add(1)` + `go performCleaning` dispatch, and the deferred unlock.
`running` counts dispatched cleaning passes that have not yet executed the
deferred `isCleaningActive.Store(false)`; the environment step `finish`
models a pass's deferred store, which ends its active period.
-/

/-- Program counter of one thread inside `checkAndCleanIfNeeded`. -/
inductive TriggerPC where
  | fastCheck
  | lockAcquire
  | recheck
  | probeStep
  | setActive
  | spawn
  | unlock
  | done
deriving Repr, DecidableEq

/-- Whether a program counter lies inside the `cleaningMutex` critical
section. -/
def inLockRegion : TriggerPC → Bool
  | .recheck => true
  | .probeStep => true
  | .setActive => true
  | .spawn => true
  | .unlock => true
  | _ => false

/-- Global state of `n` threads racing through `checkAndCleanIfNeeded` on one
session.  `probes i` is the snapshot thread `i`'s probe call will return;
`threshold` is `config.FreeSpaceThreshold`. -/
structure TriggerSys (n : Nat) where
  active : Bool
  lockHeld : Bool
  running : Nat
  pcs : Fin n → TriggerPC
  probes : Fin n → ProbeResult
  threshold : Nat

/-- Replace thread `i`'s program counter. -/
def TriggerSys.setPC {n : Nat} (s : TriggerSys n) (i : Fin n) (pc : TriggerPC) :
    TriggerSys n :=
  { s with pcs := Function.update s.pcs i pc }

/-- One atomic step of the system: a shared-memory access by one thread of
`checkAndCleanIfNeeded`, or the deferred `Store(false)` of a running
cleaning pass. -/
inductive TriggerStep {n : Nat} : TriggerSys n → TriggerSys n → Prop where
  | fastActive (s : TriggerSys n) (i : Fin n) :
      s.pcs i = .fastCheck → s.active = true →
      TriggerStep s (s.setPC i .done)
  | fastIdle (s : TriggerSys n) (i : Fin n) :
      s.pcs i = .fastCheck → s.active = false →
      TriggerStep s (s.setPC i .lockAcquire)
  | acquire (s : TriggerSys n) (i : Fin n) :
      s.pcs i = .lockAcquire → s.lockHeld = false →
      TriggerStep s { s.setPC i .recheck with lockHeld := true }
  | recheckActive (s : TriggerSys n) (i : Fin n) :
      s.pcs i = .recheck → s.active = true →
      TriggerStep s (s.setPC i .unlock)
  | recheckIdle (s : TriggerSys n) (i : Fin n) :
      s.pcs i = .recheck → s.active = false →
      TriggerStep s (s.setPC i .probeStep)
  | probeErr (s : TriggerSys n) (i : Fin n) :
      s.pcs i = .probeStep → s.probes i = .err →
      TriggerStep s (s.setPC i .unlock)
  | probeHigh (s : TriggerSys n) (i : Fin n) (d : DiskUsage) :
      s.pcs i = .probeStep → s.probes i = .ok d → ¬ d.free < s.threshold →
      TriggerStep s (s.setPC i .unlock)
  | probeLow (s : TriggerSys n) (i : Fin n) (d : DiskUsage) :
      s.pcs i = .probeStep → s.probes i = .ok d → d.free < s.threshold →
      TriggerStep s (s.setPC i .setActive)
  | storeActive (s : TriggerSys n) (i : Fin n) :
      s.pcs i = .setActive →
      TriggerStep s { s.setPC i .spawn with active := true }
  | dispatch (s : TriggerSys n) (i : Fin n) :
      s.pcs i = .spawn →
      TriggerStep s { s.setPC i .unlock with running := s.running + 1 }
  | release (s : TriggerSys n) (i : Fin n) :
      s.pcs i = .unlock →
      TriggerStep s { s.setPC i .done with lockHeld := false }
  | finish (s : TriggerSys n) :
      1 ≤ s.running →
      TriggerStep s { s with active := false, running := s.running - 1 }

/-- Reachability under interleaved trigger steps. -/
def TriggerReachable {n : Nat} : TriggerSys n → TriggerSys n → Prop :=
  Relation.ReflTransGen TriggerStep

/-- Initial configurations: the mutex is free, every `Save` caller is about to
run the fast check, and either no cleaning pass exists yet, or the session's
eager construction-time pass is still running (flag set, one pass active). -/
def TriggerInit {n : Nat} (s : TriggerSys n) : Prop :=
  s.lockHeld = false ∧ (∀ i, s.pcs i = .fastCheck) ∧
    ((s.active = false ∧ s.running = 0) ∨ (s.active = true ∧ s.running = 1))

/-- Inductive invariant of the trigger system. -/
structure TriggerInv {n : Nat} (s : TriggerSys n) : Prop where
  lockOwner : ∀ i, inLockRegion (s.pcs i) = true → s.lockHeld = true
  lockUnique : ∀ i j, inLockRegion (s.pcs i) = true → inLockRegion (s.pcs j) = true → i = j
  runLe : s.running ≤ 1
  runIdle : s.active = false → s.running = 0
  probeIdle : ∀ i, s.pcs i = .probeStep ∨ s.pcs i = .setActive → s.active = false
  spawnReady : ∀ i, s.pcs i = .spawn → s.active = true ∧ s.running = 0

theorem TriggerSys.setPC_pcs {n : Nat} (s : TriggerSys n) (i : Fin n)
    (pc : TriggerPC) (j : Fin n) :
    (s.setPC i pc).pcs j = if j = i then pc else s.pcs j := by
  simp [TriggerSys.setPC, Function.update_apply]

/-- The invariant survives moving a thread to a program counter outside the
critical section that is none of the probe/dispatch stages. -/
theorem triggerInv_setPC_out {n : Nat} {s : TriggerSys n} (inv : TriggerInv s)
    (i : Fin n) (pc : TriggerPC) (hreg : inLockRegion pc = false)
    (h1 : pc ≠ TriggerPC.probeStep) (h2 : pc ≠ TriggerPC.setActive)
    (h3 : pc ≠ TriggerPC.spawn) : TriggerInv (s.setPC i pc) := by
  refine ⟨?_, ?_, inv.runLe, inv.runIdle, ?_, ?_⟩
  · intro j hj
    rw [TriggerSys.setPC_pcs] at hj
    by_cases hji : j = i
    · rw [if_pos hji, hreg] at hj; cases hj
    · rw [if_neg hji] at hj; exact inv.lockOwner j hj
  · intro j k hj hk
    rw [TriggerSys.setPC_pcs] at hj hk
    by_cases hji : j = i
    · rw [if_pos hji, hreg] at hj; cases hj
    · by_cases hki : k = i
      · rw [if_pos hki, hreg] at hk; cases hk
      · rw [if_neg hji] at hj; rw [if_neg hki] at hk
        exact inv.lockUnique j k hj hk
  · intro j hj
    rw [TriggerSys.setPC_pcs] at hj
    by_cases hji : j = i
    · rw [if_pos hji] at hj
      cases hj with
      | inl h => exact absurd h h1
      | inr h => exact absurd h h2
    · rw [if_neg hji] at hj; exact inv.probeIdle j hj
  · intro j hj
    rw [TriggerSys.setPC_pcs] at hj
    by_cases hji : j = i
    · rw [if_pos hji] at hj; exact absurd hj h3
    · rw [if_neg hji] at hj; exact inv.spawnReady j hj

/-- The invariant survives a lock-holding thread moving to the `unlock`
stage. -/
theorem triggerInv_setPC_unlock {n : Nat} {s : TriggerSys n} (inv : TriggerInv s)
    (i : Fin n) (hold : inLockRegion (s.pcs i) = true) :
    TriggerInv (s.setPC i TriggerPC.unlock) := by
  refine ⟨?_, ?_, inv.runLe, inv.runIdle, ?_, ?_⟩
  · intro j _
    exact inv.lockOwner i hold
  · intro j k hj hk
    rw [TriggerSys.setPC_pcs] at hj hk
    by_cases hji : j = i
    · by_cases hki : k = i
      · rw [hji, hki]
      · rw [if_neg hki] at hk
        exact absurd (inv.lockUnique k i hk hold).symm (fun h => hki h.symm)
    · rw [if_neg hji] at hj
      exact absurd (inv.lockUnique j i hj hold) hji
  · intro j hj
    rw [TriggerSys.setPC_pcs] at hj
    by_cases hji : j = i
    · rw [if_pos hji] at hj
      cases hj with
      | inl h => cases h
      | inr h => cases h
    · rw [if_neg hji] at hj; exact inv.probeIdle j hj
  · intro j hj
    rw [TriggerSys.setPC_pcs] at hj
    by_cases hji : j = i
    · rw [if_pos hji] at hj; cases hj
    · rw [if_neg hji] at hj; exact inv.spawnReady j hj

/-- The invariant survives a lock-holding thread moving to the `probeStep` or
`setActive` stage while the cleaning flag is down. -/
theorem triggerInv_setPC_probing {n : Nat} {s : TriggerSys n} (inv : TriggerInv s)
    (i : Fin n) (pc : TriggerPC) (hold : inLockRegion (s.pcs i) = true)
    (hns : pc ≠ TriggerPC.spawn) (hact : s.active = false) :
    TriggerInv (s.setPC i pc) := by
  refine ⟨?_, ?_, inv.runLe, inv.runIdle, ?_, ?_⟩
  · intro j _
    exact inv.lockOwner i hold
  · intro j k hj hk
    rw [TriggerSys.setPC_pcs] at hj hk
    by_cases hji : j = i
    · by_cases hki : k = i
      · rw [hji, hki]
      · rw [if_neg hki] at hk
        exact absurd (inv.lockUnique k i hk hold).symm (fun h => hki h.symm)
    · rw [if_neg hji] at hj
      exact absurd (inv.lockUnique j i hj hold) hji
  · intro j hj
    exact hact
  · intro j hj
    rw [TriggerSys.setPC_pcs] at hj
    by_cases hji : j = i
    · rw [if_pos hji] at hj; exact absurd hj hns
    · rw [if_neg hji] at hj; exact inv.spawnReady j hj

/-- One interleaved step preserves the invariant. -/
theorem triggerInv_step {n : Nat} {s t : TriggerSys n} (inv : TriggerInv s)
    (st : TriggerStep s t) : TriggerInv t := by
  cases st with
  | fastActive i hpc hact =>
      exact triggerInv_setPC_out inv i .done rfl (by intro h; cases h)
        (by intro h; cases h) (by intro h; cases h)
  | fastIdle i hpc hact =>
      exact triggerInv_setPC_out inv i .lockAcquire rfl (by intro h; cases h)
        (by intro h; cases h) (by intro h; cases h)
  | acquire i hpc hfree =>
      refine ⟨?_, ?_, inv.runLe, inv.runIdle, ?_, ?_⟩
      · intro j _
        rfl
      · intro j k hj hk
        simp only [TriggerSys.setPC, Function.update_apply] at hj hk
        by_cases hji : j = i
        · by_cases hki : k = i
          · rw [hji, hki]
          · rw [if_neg hki] at hk
            rw [inv.lockOwner k hk] at hfree; cases hfree
        · rw [if_neg hji] at hj
          rw [inv.lockOwner j hj] at hfree; cases hfree
      · intro j hj
        simp only [TriggerSys.setPC, Function.update_apply] at hj
        by_cases hji : j = i
        · rw [if_pos hji] at hj
          cases hj with
          | inl h => cases h
          | inr h => cases h
        · rw [if_neg hji] at hj
          exact inv.probeIdle j hj
      · intro j hj
        simp only [TriggerSys.setPC, Function.update_apply] at hj
        by_cases hji : j = i
        · rw [if_pos hji] at hj; cases hj
        · rw [if_neg hji] at hj
          exact inv.spawnReady j hj
  | recheckActive i hpc hact =>
      exact triggerInv_setPC_unlock inv i (by rw [hpc]; rfl)
  | recheckIdle i hpc hact =>
      exact triggerInv_setPC_probing inv i .probeStep (by rw [hpc]; rfl)
        (by intro h; cases h) hact
  | probeErr i hpc hprobe =>
      exact triggerInv_setPC_unlock inv i (by rw [hpc]; rfl)
  | probeHigh i d hpc hprobe hfree =>
      exact triggerInv_setPC_unlock inv i (by rw [hpc]; rfl)
  | probeLow i d hpc hprobe hfree =>
      exact triggerInv_setPC_probing inv i .setActive (by rw [hpc]; rfl)
        (by intro h; cases h) (inv.probeIdle i (Or.inl hpc))
  | storeActive i hpc =>
      have hact : s.active = false := inv.probeIdle i (Or.inr hpc)
      have hrun : s.running = 0 := inv.runIdle hact
      have hold : inLockRegion (s.pcs i) = true := by rw [hpc]; rfl
      refine ⟨?_, ?_, inv.runLe, ?_, ?_, ?_⟩
      · intro j _
        exact inv.lockOwner i hold
      · intro j k hj hk
        simp only [TriggerSys.setPC, Function.update_apply] at hj hk
        by_cases hji : j = i
        · by_cases hki : k = i
          · rw [hji, hki]
          · rw [if_neg hki] at hk
            exact absurd (inv.lockUnique k i hk hold).symm (fun h => hki h.symm)
        · rw [if_neg hji] at hj
          exact absurd (inv.lockUnique j i hj hold) hji
      · intro h
        cases h
      · intro j hj
        simp only [TriggerSys.setPC, Function.update_apply] at hj
        by_cases hji : j = i
        · rw [if_pos hji] at hj
          cases hj with
          | inl h => cases h
          | inr h => cases h
        · rw [if_neg hji] at hj
          have hreg : inLockRegion (s.pcs j) = true := by
            cases hj with
            | inl h => rw [h]; rfl
            | inr h => rw [h]; rfl
          exact absurd (inv.lockUnique j i hreg hold) hji
      · intro j hj
        simp only [TriggerSys.setPC, Function.update_apply] at hj
        by_cases hji : j = i
        · exact ⟨rfl, hrun⟩
        · rw [if_neg hji] at hj
          have hreg : inLockRegion (s.pcs j) = true := by rw [hj]; rfl
          exact absurd (inv.lockUnique j i hreg hold) hji
  | dispatch i hpc =>
      obtain ⟨hact, hrun⟩ := inv.spawnReady i hpc
      have hold : inLockRegion (s.pcs i) = true := by rw [hpc]; rfl
      refine ⟨?_, ?_, ?_, ?_, ?_, ?_⟩
      · intro j _
        exact inv.lockOwner i hold
      · intro j k hj hk
        simp only [TriggerSys.setPC, Function.update_apply] at hj hk
        by_cases hji : j = i
        · by_cases hki : k = i
          · rw [hji, hki]
          · rw [if_neg hki] at hk
            exact absurd (inv.lockUnique k i hk hold).symm (fun h => hki h.symm)
        · rw [if_neg hji] at hj
          exact absurd (inv.lockUnique j i hj hold) hji
      · show s.running + 1 ≤ 1
        omega
      · intro h
        rw [show ({ s.setPC i TriggerPC.unlock with running := s.running + 1 } :
              TriggerSys n).active = s.active from rfl, hact] at h
        cases h
      · intro j hj
        simp only [TriggerSys.setPC, Function.update_apply] at hj
        by_cases hji : j = i
        · rw [if_pos hji] at hj
          cases hj with
          | inl h => cases h
          | inr h => cases h
        · rw [if_neg hji] at hj
          have hreg : inLockRegion (s.pcs j) = true := by
            cases hj with
            | inl h => rw [h]; rfl
            | inr h => rw [h]; rfl
          exact absurd (inv.lockUnique j i hreg hold) hji
      · intro j hj
        simp only [TriggerSys.setPC, Function.update_apply] at hj
        by_cases hji : j = i
        · rw [if_pos hji] at hj; cases hj
        · rw [if_neg hji] at hj
          have hreg : inLockRegion (s.pcs j) = true := by rw [hj]; rfl
          exact absurd (inv.lockUnique j i hreg hold) hji
  | release i hpc =>
      have hold : inLockRegion (s.pcs i) = true := by rw [hpc]; rfl
      refine ⟨?_, ?_, inv.runLe, inv.runIdle, ?_, ?_⟩
      · intro j hj
        simp only [TriggerSys.setPC, Function.update_apply] at hj
        by_cases hji : j = i
        · rw [if_pos hji] at hj; cases hj
        · rw [if_neg hji] at hj
          exact absurd (inv.lockUnique j i hj hold) hji
      · intro j k hj hk
        simp only [TriggerSys.setPC, Function.update_apply] at hj
        by_cases hji : j = i
        · rw [if_pos hji] at hj; cases hj
        · rw [if_neg hji] at hj
          exact absurd (inv.lockUnique j i hj hold) hji
      · intro j hj
        simp only [TriggerSys.setPC, Function.update_apply] at hj
        by_cases hji : j = i
        · rw [if_pos hji] at hj
          cases hj with
          | inl h => cases h
          | inr h => cases h
        · rw [if_neg hji] at hj
          exact inv.probeIdle j hj
      · intro j hj
        simp only [TriggerSys.setPC, Function.update_apply] at hj
        by_cases hji : j = i
        · rw [if_pos hji] at hj; cases hj
        · rw [if_neg hji] at hj
          exact inv.spawnReady j hj
  | finish hrun1 =>
      refine ⟨inv.lockOwner, inv.lockUnique, ?_, ?_, ?_, ?_⟩
      · show s.running - 1 ≤ 1
        have := inv.runLe
        omega
      · intro _
        show s.running - 1 = 0
        have := inv.runLe
        omega
      · intro j _
        rfl
      · intro j hj
        obtain ⟨_, h0⟩ := inv.spawnReady j hj
        omega

/-- The invariant holds in every initial configuration. -/
theorem triggerInv_init {n : Nat} {s : TriggerSys n} (h : TriggerInit s) :
    TriggerInv s := by
  obtain ⟨hlock, hpcs, hcase⟩ := h
  have hreg : ∀ i, inLockRegion (s.pcs i) = false := by
    intro i; rw [hpcs i]; rfl
  refine ⟨?_, ?_, ?_, ?_, ?_, ?_⟩
  · intro i hi
    rw [hreg i] at hi; cases hi
  · intro i j hi _
    rw [hreg i] at hi; cases hi
  · cases hcase with
    | inl h => rw [h.2]; omega
    | inr h => rw [h.2]
  · intro hact
    cases hcase with
    | inl h => exact h.2
    | inr h => rw [h.1] at hact; cases hact
  · intro i hi
    cases hi with
    | inl h => rw [hpcs i] at h; cases h
    | inr h => rw [hpcs i] at h; cases h
  · intro i hi
    rw [hpcs i] at hi; cases hi

/-- The invariant holds in every reachable configuration. -/
theorem triggerInv_reachable {n : Nat} {s t : TriggerSys n}
    (h0 : TriggerInit s) (hr : TriggerReachable s t) : TriggerInv t := by
  induction hr with
  | refl => exact triggerInv_init h0
  | tail _ hstep ih => exact triggerInv_step ih hstep

/-!
## Shared helper lemmas
-/

/-- Applying the configuration defaults never changes the free-space
threshold. -/
theorem applyDefaults_freeSpaceThreshold (config : LocalBackupSessionConfig) :
    (applyDefaults config).freeSpaceThreshold = config.freeSpaceThreshold := by
  unfold applyDefaults
  split <;> rfl

/-- The value `Save` returns does not depend on the probe result consumed by
the capacity check. -/
theorem save_result_probe_independent (s : LocalBackupSession)
    (localFilePath relativePath : String) (stat : Option FileStat)
    (mkdirOk : Bool) (env : CopyFileEnv) (probe probe' : ProbeResult) :
    (Save s localFilePath relativePath stat mkdirOk env probe).2 =
      (Save s localFilePath relativePath stat mkdirOk env probe').2 := by
  unfold Save
  split
  · rfl
  · cases stat with
    | none => rfl
    | some srcInfo =>
      split
      · rfl
      · split
        · rfl
        · cases hc : (copyFile env).result
          · rfl
          · split
            · rfl
            · split <;> rfl

/-- Running a batch of uploads decrements the wait-group counter once per
upload, whatever each upload's outcome. -/
theorem runUploads_outstandingWork (rs : List (Except GoError Unit))
    (u : S3BackupSession) :
    (runUploads u rs).outstandingWork = u.outstandingWork - rs.length := by
  induction rs generalizing u with
  | nil => simp [runUploads]
  | cons r rs ih =>
    rw [runUploads, ih]
    cases r <;> simp [runUploadTask] <;> omega

/-- A concrete valid configuration used by the witnesses. -/
def sampleConfig : LocalBackupSessionConfig :=
  { rootDir := "/backup"
    freeSpaceThreshold := 10
    targetFreeSpace := 20
    checkInterval := 4
    cleaningConfig := { maxUsagePercent := none } }

/-- A concrete session state used by the witnesses. -/
def sampleSession : LocalBackupSession :=
  { config := sampleConfig
    accumulatedSize := 0
    isCleaningActive := false
    outstandingWork := 0
    pendingCleanings := 0
    cleaningDoneClosed := false }

/-- A concrete S3 configuration used by the witnesses. -/
def sampleS3Config : S3BackupSessionConfig :=
  { region := "us-east-1"
    accessKeyID := "k"
    secretAccessKey := "s"
    sessionToken := ""
    bucket := "b"
    pfx := "p"
    endpoint := ""
    acl := "" }

/-- A concrete S3 session state used by the witnesses. -/
def sampleS3Session : S3BackupSession :=
  { config := sampleS3Config
    outstandingWork := 0
    pendingUploads := 0 }

/-- An all-successful file-system environment for `copyFile`. -/
def allOkEnv : CopyFileEnv :=
  ⟨true, true, true, true, true, true⟩

/-!
## Claim theorems
-/

/-- C3: when a cleanup pass returns — whether the disk-usage probe failed,
the external engine failed, or the engine succeeded — the accumulated size
counter is exactly zero and the cleaning state is back to idle. -/
theorem cleanup_resets_state (s : LocalBackupSession) (probe : ProbeResult)
    (engine : EngineResult) :
    (performCleaning s probe engine).1.accumulatedSize = 0 ∧
    (performCleaning s probe engine).1.isCleaningActive = false := by
  unfold performCleaning
  cases probe with
  | err => exact ⟨rfl, rfl⟩
  | ok d => cases engine <;> exact ⟨rfl, rfl⟩

/-- C5: a Save whose inputs are non-empty, whose source is a regular file and
whose copy succeeds returns ok regardless of the free-space level, the probe
outcome consumed by the capacity check, or any cleanup pass. -/
theorem save_ok_despite_capacity (s : LocalBackupSession)
    (localFilePath relativePath : String) (srcInfo : FileStat)
    (env : CopyFileEnv) (probe : ProbeResult)
    (h1 : localFilePath ≠ "") (h2 : relativePath ≠ "")
    (hreg : srcInfo.isRegular = true)
    (hcopy : (copyFile env).result = .ok ()) :
    (Save s localFilePath relativePath (some srcInfo) true env probe).2 = .ok () := by
  unfold Save
  rw [if_neg (by simp [h1, h2])]
  dsimp only
  rw [hreg, hcopy]
  simp only [Bool.true_eq_false, if_false]

/-- C5 witness: a concrete Save over a failing probe still returns ok. -/
theorem save_ok_despite_capacity_witness :
    ("a" : String) ≠ "" ∧ ("b" : String) ≠ "" ∧
    (⟨5, true⟩ : FileStat).isRegular = true ∧
    (copyFile allOkEnv).result = .ok () ∧
    (Save sampleSession "a" "b" (some ⟨5, true⟩) true allOkEnv .err).2 = .ok () :=
  ⟨by decide, by decide, rfl, rfl,
   save_ok_despite_capacity sampleSession "a" "b" ⟨5, true⟩ allOkEnv .err
     (by decide) (by decide) rfl rfl⟩

/-- C7: Save with an empty source path or an empty relative path fails
synchronously with an input error on both variants, leaving the session state
— in particular the accumulated size and the outstanding-work count —
untouched. -/
theorem save_empty_path_rejected (s : LocalBackupSession) (t : S3BackupSession)
    (localFilePath relativePath : String) (stat : Option FileStat)
    (mkdirOk : Bool) (env : CopyFileEnv) (probe : ProbeResult)
    (h : localFilePath = "" ∨ relativePath = "") :
    Save s localFilePath relativePath stat mkdirOk env probe =
      (s, .error (.invalidConfig "empty file path")) ∧
    S3Save t localFilePath relativePath stat =
      (t, .error (.invalidConfig "empty file path")) := by
  unfold Save S3Save
  rw [if_pos h, if_pos h]
  exact ⟨rfl, rfl⟩

/-- C7 witness: a concrete empty-source-path Save is rejected with the state
unchanged on both variants. -/
theorem save_empty_path_rejected_witness :
    (("" : String) = "" ∨ ("x" : String) = "") ∧
    (Save sampleSession "" "x" none true allOkEnv .err =
       (sampleSession, .error (.invalidConfig "empty file path")) ∧
     S3Save sampleS3Session "" "x" none =
       (sampleS3Session, .error (.invalidConfig "empty file path"))) :=
  ⟨Or.inl rfl,
   save_empty_path_rejected sampleSession sampleS3Session "" "x" none true
     allOkEnv .err (Or.inl rfl)⟩

/-- C10: `Close` closes the completion-notification channel unconditionally,
so the second of two Close calls on the same session panics (close of an
already-closed channel) instead of returning ok. -/
theorem double_close_panics (s : LocalBackupSession)
    (h : s.cleaningDoneClosed = false) :
    Close s = .ok { s with cleaningDoneClosed := true } ∧
    Close { s with cleaningDoneClosed := true } = .panicked := by
  constructor
  · unfold Close
    rw [h]
    simp
  · unfold Close
    simp

/-- C10 witness: a concrete fresh session closes once and panics on the
second Close. -/
theorem double_close_panics_witness :
    sampleSession.cleaningDoneClosed = false ∧
    (Close sampleSession = .ok { sampleSession with cleaningDoneClosed := true } ∧
     Close { sampleSession with cleaningDoneClosed := true } = .panicked) :=
  ⟨rfl, double_close_panics sampleSession rfl⟩

/-- C1 counterexample: with a valid configuration, a failing capacity probe
makes `NewLocalBackupSession` return an error instead of a ready session —
the probe failure does propagate to the caller of Construct. -/
theorem construct_probe_error_counterexample :
    NewLocalBackupSession sampleConfig true .err =
      .error (.plain "failed to get disk usage") := by
  rfl

/-- C1 (amended): a probe error is absorbed at the capacity check on the
Save path — `checkAndCleanIfNeeded` leaves the session untouched and Save's
caller-visible result is unchanged — but `NewLocalBackupSession` propagates
an initial probe failure to its caller as an error. -/
theorem probe_error_absorbed_in_save_only (s : LocalBackupSession)
    (localFilePath relativePath : String) (stat : Option FileStat)
    (mkdirOk : Bool) (env : CopyFileEnv) (probe : ProbeResult)
    (c : LocalBackupSessionConfig) (hvalid : validateLocalConfig c = .ok ()) :
    checkAndCleanIfNeeded s .err = s ∧
    (Save s localFilePath relativePath stat mkdirOk env .err).2 =
      (Save s localFilePath relativePath stat mkdirOk env probe).2 ∧
    NewLocalBackupSession c true .err =
      .error (.plain "failed to get disk usage") := by
  refine ⟨?_,
    save_result_probe_independent s localFilePath relativePath stat mkdirOk env
      .err probe, ?_⟩
  · unfold checkAndCleanIfNeeded
    dsimp only
    split <;> rfl
  · unfold NewLocalBackupSession
    rw [hvalid]
    rfl

/-- C1 witness: the concrete configuration shows both halves of the amended
statement. -/
theorem probe_error_absorbed_in_save_only_witness :
    validateLocalConfig sampleConfig = .ok () ∧
    (checkAndCleanIfNeeded sampleSession .err = sampleSession ∧
     (Save sampleSession "a" "b" (some ⟨5, true⟩) true allOkEnv .err).2 =
       (Save sampleSession "a" "b" (some ⟨5, true⟩) true allOkEnv
         (.ok ⟨100, 50, 50⟩)).2 ∧
     NewLocalBackupSession sampleConfig true .err =
       .error (.plain "failed to get disk usage")) :=
  ⟨rfl, probe_error_absorbed_in_save_only sampleSession "a" "b" (some ⟨5, true⟩)
     true allOkEnv (.ok ⟨100, 50, 50⟩) sampleConfig rfl⟩

/-- C2: in every configuration reachable by interleaving concurrently
triggered capacity checks with cleanup completions, at most one cleanup pass
is in the active state at any instant. -/
theorem at_most_one_cleaning_pass {n : Nat} {s0 s : TriggerSys n}
    (h0 : TriggerInit s0) (hr : TriggerReachable s0 s) : s.running ≤ 1 :=
  (triggerInv_reachable h0 hr).runLe

/-- A two-thread starting configuration for the C2 witness: both saves are
about to run the capacity check, free space below the threshold. -/
def sampleTriggerSys : TriggerSys 2 :=
  { active := false
    lockHeld := false
    running := 0
    pcs := fun _ => .fastCheck
    probes := fun _ => .ok ⟨100, 5, 95⟩
    threshold := 10 }

/-- C2 witness: a concrete interleaving step from a two-thread initial
configuration keeps at most one pass active. -/
theorem at_most_one_cleaning_pass_witness :
    TriggerInit sampleTriggerSys ∧
    (sampleTriggerSys.setPC 0 .lockAcquire).running ≤ 1 :=
  ⟨⟨rfl, fun _ => rfl, Or.inl ⟨rfl, rfl⟩⟩,
   at_most_one_cleaning_pass ⟨rfl, fun _ => rfl, Or.inl ⟨rfl, rfl⟩⟩
     (Relation.ReflTransGen.tail Relation.ReflTransGen.refl
       (TriggerStep.fastIdle sampleTriggerSys 0 rfl rfl))⟩

/-- C4: constructing with an initial snapshot whose free space is strictly
below the threshold registers one unit of outstanding work, sets the
cleaning state to active, dispatches a cleanup pass, still returns a ready
session, and `WaitForCompletion` blocks until that pass finishes. -/
theorem construct_eager_bootstrap (config : LocalBackupSessionConfig)
    (d : DiskUsage) (hvalid : validateLocalConfig config = .ok ())
    (hlow : d.free < config.freeSpaceThreshold) :
    ∃ sess, NewLocalBackupSession config true (.ok d) = .ok sess ∧
      sess.outstandingWork = 1 ∧ sess.isCleaningActive = true ∧
      sess.pendingCleanings = 1 ∧
      WaitForCompletion sess false = none ∧
      ∀ probe engine,
        WaitForCompletion (runCleaningTask sess probe engine).1 false =
          some (.ok ()) := by
  unfold NewLocalBackupSession
  rw [hvalid]
  dsimp only
  simp only [Bool.true_eq_false, if_false]
  rw [applyDefaults_freeSpaceThreshold, if_pos hlow]
  refine ⟨_, rfl, rfl, rfl, rfl, rfl, ?_⟩
  intro probe engine
  cases probe <;> cases engine <;> rfl

/-- C4 witness: the concrete configuration sees free space 5 below the
threshold 10 and boots a cleanup pass. -/
theorem construct_eager_bootstrap_witness :
    validateLocalConfig sampleConfig = .ok () ∧
    (⟨100, 5, 95⟩ : DiskUsage).free < sampleConfig.freeSpaceThreshold ∧
    ∃ sess, NewLocalBackupSession sampleConfig true (.ok ⟨100, 5, 95⟩) =
        .ok sess ∧
      sess.outstandingWork = 1 ∧ sess.isCleaningActive = true ∧
      sess.pendingCleanings = 1 ∧
      WaitForCompletion sess false = none ∧
      ∀ probe engine,
        WaitForCompletion (runCleaningTask sess probe engine).1 false =
          some (.ok ()) :=
  ⟨rfl, by decide,
   construct_eager_bootstrap sampleConfig ⟨100, 5, 95⟩ rfl (by decide)⟩

/-- C6: the cleanup pass invokes the engine on the session root with a
configuration whose maximum usage percentage is the caller's when one is
set; otherwise it is the percentage of total capacity corresponding to a
desired used space of total minus targetFreeSpace, clamped to zero when
targetFreeSpace is at least the total capacity. -/
theorem cleanup_target_percent (s : LocalBackupSession) (d : DiskUsage)
    (engine : EngineResult) (_htotal : 0 < d.total) :
    ∃ call, (performCleaning s (.ok d) engine).2 = some call ∧
      call.rootDir = s.config.rootDir ∧
      (s.config.cleaningConfig.maxUsagePercent = none →
        call.config.maxUsagePercent =
          some (((d.total - s.config.targetFreeSpace : Nat) : ℚ) /
            (d.total : ℚ) * 100)) ∧
      (∀ p, s.config.cleaningConfig.maxUsagePercent = some p →
        call.config.maxUsagePercent = some p) ∧
      (s.config.cleaningConfig.maxUsagePercent = none →
        d.total ≤ s.config.targetFreeSpace →
        call.config.maxUsagePercent = some 0) := by
  have he : performCleaning s (.ok d) engine = performCleaning s (.ok d) .ok := by
    cases engine <;> rfl
  rw [he]
  unfold performCleaning
  refine ⟨_, rfl, rfl, ?_, ?_, ?_⟩
  · intro h
    by_cases ht : s.config.targetFreeSpace < d.total
    · simp [h, ht]
    · have h0 : d.total - s.config.targetFreeSpace = 0 :=
        Nat.sub_eq_zero_of_le (le_of_not_lt ht)
      simp [h, ht, h0]
  · intro p hp
    simp [hp]
  · intro h hle
    simp [h, not_lt.mpr hle]

/-- C6 witness: with total 100 and targetFreeSpace 20 the engine receives a
default of 80 percent. -/
theorem cleanup_target_percent_witness :
    0 < (⟨100, 5, 95⟩ : DiskUsage).total ∧
    ∃ call, (performCleaning sampleSession (.ok ⟨100, 5, 95⟩) .ok).2 =
        some call ∧
      call.rootDir = sampleSession.config.rootDir ∧
      (sampleSession.config.cleaningConfig.maxUsagePercent = none →
        call.config.maxUsagePercent =
          some ((((⟨100, 5, 95⟩ : DiskUsage).total -
              sampleSession.config.targetFreeSpace : Nat) : ℚ) /
            ((⟨100, 5, 95⟩ : DiskUsage).total : ℚ) * 100)) ∧
      (∀ p, sampleSession.config.cleaningConfig.maxUsagePercent = some p →
        call.config.maxUsagePercent = some p) ∧
      (sampleSession.config.cleaningConfig.maxUsagePercent = none →
        (⟨100, 5, 95⟩ : DiskUsage).total ≤
          sampleSession.config.targetFreeSpace →
        call.config.maxUsagePercent = some 0) :=
  ⟨by decide,
   cleanup_target_percent sampleSession ⟨100, 5, 95⟩ .ok (by decide)⟩

/-- C8: the remote Save returns ok as soon as the upload is registered in the
wait group and dispatched; the outcome of an upload never changes the
resulting state, and the completion wait returns ok once every dispatched
upload has run, failures included. -/
theorem s3_save_async_ok (t : S3BackupSession)
    (localFilePath relativePath : String) (fileInfo : FileStat)
    (h1 : localFilePath ≠ "") (h2 : relativePath ≠ "")
    (hreg : fileInfo.isRegular = true) :
    (S3Save t localFilePath relativePath (some fileInfo)).2 = .ok () ∧
    (S3Save t localFilePath relativePath (some fileInfo)).1.outstandingWork =
      t.outstandingWork + 1 ∧
    (∀ u r r', runUploadTask u r = runUploadTask u r') ∧
    (∀ rs : List (Except GoError Unit),
      rs.length =
        (S3Save t localFilePath relativePath (some fileInfo)).1.outstandingWork →
      S3WaitForCompletion
        (runUploads (S3Save t localFilePath relativePath (some fileInfo)).1 rs)
        false = some (.ok ())) := by
  have hsave : S3Save t localFilePath relativePath (some fileInfo) =
      ({ t with
          outstandingWork := t.outstandingWork + 1
          pendingUploads := t.pendingUploads + 1 }, .ok ()) := by
    unfold S3Save
    rw [if_neg (by simp [h1, h2])]
    dsimp only
    rw [hreg]
    simp
  refine ⟨by rw [hsave], by rw [hsave], ?_, ?_⟩
  · intro u r r'
    cases r <;> cases r' <;> rfl
  · intro rs hlen
    have h0 : (runUploads
        (S3Save t localFilePath relativePath (some fileInfo)).1 rs).outstandingWork
        = 0 := by
      rw [runUploads_outstandingWork, hlen]
      omega
    unfold S3WaitForCompletion
    rw [h0]
    simp

/-- C8 witness: one dispatched upload that fails still lets the completion
wait return ok. -/
theorem s3_save_async_ok_witness :
    ("a" : String) ≠ "" ∧ ("b" : String) ≠ "" ∧
    (⟨5, true⟩ : FileStat).isRegular = true ∧
    ((S3Save sampleS3Session "a" "b" (some ⟨5, true⟩)).2 = .ok () ∧
     (S3Save sampleS3Session "a" "b" (some ⟨5, true⟩)).1.outstandingWork =
       sampleS3Session.outstandingWork + 1 ∧
     (∀ u r r', runUploadTask u r = runUploadTask u r') ∧
     (∀ rs : List (Except GoError Unit),
       rs.length =
         (S3Save sampleS3Session "a" "b" (some ⟨5, true⟩)).1.outstandingWork →
       S3WaitForCompletion
         (runUploads (S3Save sampleS3Session "a" "b" (some ⟨5, true⟩)).1 rs)
         false = some (.ok ()))) :=
  ⟨by decide, by decide, rfl,
   s3_save_async_ok sampleS3Session "a" "b" ⟨5, true⟩ (by decide) (by decide) rfl⟩

/-- C9: when the byte-copy loop of a local Save fails, the destination file
is removed and Save surfaces a backup error; when the copy loop succeeds the
destination is never removed, so failures of the later permission or flush
steps leave it in place. -/
theorem copy_failure_removes_dest (s : LocalBackupSession)
    (localFilePath relativePath : String) (srcInfo : FileStat)
    (env : CopyFileEnv) (probe : ProbeResult)
    (h1 : localFilePath ≠ "") (h2 : relativePath ≠ "")
    (hreg : srcInfo.isRegular = true)
    (hopen : env.openOk = true) (hcreate : env.createOk = true) :
    (env.ioCopyOk = false →
      (copyFile env).destRemoved = true ∧
      (Save s localFilePath relativePath (some srcInfo) true env probe).2 =
        .error (.backupFailed "copy failed")) ∧
    (env.ioCopyOk = true → (copyFile env).destRemoved = false) := by
  constructor
  · intro hcopy
    have hcf : copyFile env = ⟨.error (.plain "failed to copy file"), true⟩ := by
      unfold copyFile
      rw [hopen, hcreate, hcopy]
      simp
    constructor
    · rw [hcf]
    · unfold Save
      rw [if_neg (by simp [h1, h2])]
      dsimp only
      rw [hreg, hcf]
      simp
  · intro hcopy
    unfold copyFile
    rw [hopen, hcreate, hcopy]
    simp only [Bool.true_eq_false, if_false]
    split
    · rfl
    · split
      · rfl
      · split
        · rfl
        · rfl

/-- C9 witness: a concrete environment failing exactly at the copy loop
removes the destination and surfaces a backup error. -/
theorem copy_failure_removes_dest_witness :
    ("a" : String) ≠ "" ∧ ("b" : String) ≠ "" ∧
    (⟨5, true⟩ : FileStat).isRegular = true ∧
    (⟨true, true, false, true, true, true⟩ : CopyFileEnv).openOk = true ∧
    (⟨true, true, false, true, true, true⟩ : CopyFileEnv).createOk = true ∧
    (((⟨true, true, false, true, true, true⟩ : CopyFileEnv).ioCopyOk = false →
      (copyFile ⟨true, true, false, true, true, true⟩).destRemoved = true ∧
      (Save sampleSession "a" "b" (some ⟨5, true⟩) true
        ⟨true, true, false, true, true, true⟩ .err).2 =
        .error (.backupFailed "copy failed")) ∧
     ((⟨true, true, false, true, true, true⟩ : CopyFileEnv).ioCopyOk = true →
      (copyFile ⟨true, true, false, true, true, true⟩).destRemoved = false)) :=
  ⟨by decide, by decide, rfl, rfl, rfl,
   copy_failure_removes_dest sampleSession "a" "b" ⟨5, true⟩
     ⟨true, true, false, true, true, true⟩ .err (by decide) (by decide)
     rfl rfl rfl⟩

end SafeBackup
